import Mathlib

/-!
# LIFX integration plugin: embedding of `iglu_impl.go`

The plugin keeps four package-level variables (`token`, `lastPull`, `available`,
`deviceStates`) and talks to the outside world through the Go standard library
(`net/http`, `encoding/json`, `time`).  The embedding passes the four variables
explicitly as a `State`; every library call whose result is not determined by
the program (validating and parsing a URL string, the round trip, reading the body, decoding the
JSON text, reading the clock) is answered by an `Env` record that describes the
world during one call of a plugin method.  Every method returns an `Outcome`:
its Go return value, the state afterwards, the requests handed to
`http.DefaultClient.Do` and the lines written to the logger.
-/

namespace Lifx

/-! ## Values of the Go runtime and of the plugin SDK -/

/-- Non-nil Go `error`; the program only observes it through `%v`. -/
structure GoError where
  msg : String
deriving DecidableEq, Repr

/-- Instants are counted in nanoseconds from the zero value of `time.Time`. -/
abbrev Time := Nat

/-- Go `time.Duration`: a signed 64 bit count of nanoseconds. -/
abbrev Duration := Int

def Second : Duration := 1000000000

def maxDuration : Duration := 2 ^ 63 - 1

def minDuration : Duration := -(2 ^ 63)

/-- Go `Time.IsZero`. -/
def IsZero (t : Time) : Bool := t == 0

/-- Go `Time.Sub`: the difference `t - u`, saturated to the range of `Duration`. -/
def timeSub (t u : Time) : Duration :=
  let d : Int := (t : Int) - (u : Int)
  if d > maxDuration then maxDuration
  else if d < minDuration then minDuration
  else d

/-- An `*http.Request` as far as the plugin fills it in.  A Go nil body is `none`; `url` is
the text of the parsed `req.URL`, as `URL.String()` writes it. -/
structure Request where
  method : String
  url : String
  body : Option String
  header : List (String × String)
deriving DecidableEq, Repr

/-- Go `Header.Set`: the value replaces whatever was stored under the key.
(Both keys the plugin uses are already in canonical MIME form.) -/
def Request.setHeader (r : Request) (key value : String) : Request :=
  { r with header := r.header.filter (fun kv => kv.1 != key) ++ [(key, value)] }

/-- Go `Header.Get`. -/
def Request.getHeader (r : Request) (key : String) : Option String :=
  (r.header.find? (fun kv => kv.1 == key)).map Prod.snd

/-- An `*http.Response`: the status code and what `ioutil.ReadAll(resp.Body)` yields. -/
structure Response where
  statusCode : Nat
  body : Except GoError String

structure Color where
  Hue : Int := 0
  Saturation : Int := 0
  Kelvin : Int := 0
deriving DecidableEq, Repr

structure Group where
  ID : String := ""
  Name : String := ""
deriving DecidableEq, Repr

structure Location where
  ID : String := ""
  Name : String := ""
deriving DecidableEq, Repr

structure Capabilities where
  HasColor : Bool := false
  HasVariableColorTemp : Bool := false
  HasIr : Bool := false
  HasChain : Bool := false
  HasMatrix : Bool := false
  HasMultizone : Bool := false
  MinKelvin : Int := 0
  MaxKelvin : Int := 0
deriving DecidableEq, Repr

structure Product where
  Name : String := ""
  Identifier : String := ""
  Company : String := ""
  Capabilities : Capabilities := {}
deriving DecidableEq, Repr

/-- One element of the Go type `ListDevices`; absent JSON fields keep the zero value. -/
structure Device where
  ID : String := ""
  UUID : String := ""
  Label : String := ""
  Connected : Bool := false
  Power : String := ""
  Color : Color := {}
  Brightness : Int := 0
  Effect : String := ""
  Group : Group := {}
  Location : Location := {}
  Product : Product := {}
  LastSeen : Time := 0
  SecondsSinceSeen : Int := 0
deriving DecidableEq, Repr

abbrev ListDevices := List Device

/-- The SDK type `sdk.AvailableDevice`, with the four fields the plugin sets (`Type_` is the
Go field `Type`). -/
structure AvailableDevice where
  UniqueID : String
  ManufacturerName : String
  ModelName : String
  Type_ : Int
deriving DecidableEq, Repr

/-- The SDK type `sdk.PluginManifest`. -/
structure PluginManifest where
  Id : String
  Name : String
  Author : String
  Version : String
deriving DecidableEq, Repr

/-- Modelled from the spec: the SDK enumeration of configuration value types is not among
the sources; the plugin only names `sdk.StringValue`, "a string field". -/
inductive ConfigType where
  | StringValue
  | OtherValue (tag : Nat)
deriving DecidableEq, Repr

/-- The SDK type `sdk.PluginConfig`, with the five fields the plugin sets (`Type_` is the
Go field `Type`). -/
structure PluginConfig where
  Title : String
  Description : String
  Key : String
  Type_ : ConfigType
  IsUserSpecific : Bool
deriving DecidableEq, Repr

/-- The SDK type `sdk.ConfigKV`: one configuration key with the value the host holds for it. -/
structure ConfigKV where
  Key : String
  Value : String
deriving DecidableEq, Repr

/-- The SDK type `sdk.WebExtension`; the plugin never builds one. -/
structure WebExtension where
  Path : String
deriving DecidableEq, Repr

/-! ## The state cache: a Go `map[string]bool` -/

/-- Entries of a Go `map[string]bool`, each key at most once. -/
abbrev StateMap := List (String × Bool)

def StateMap.keys (m : StateMap) : List String := m.map Prod.fst

/-- Reading `m[k]`: the stored value, and the zero value `false` for an absent key. -/
def StateMap.get : StateMap → String → Bool
  | [], _ => false
  | (k', v') :: rest, k => if k' = k then v' else StateMap.get rest k

/-- The assignment `m[k] = v`. -/
def StateMap.set : StateMap → String → Bool → StateMap
  | [], k, v => [(k, v)]
  | (k', v') :: rest, k, v =>
    if k' = k then (k, v) :: rest else (k', v') :: StateMap.set rest k v

/-! ## Package-level variables, the world, and outcomes -/

/-- The package-level variables.  A nil slice is the empty list; the nil map is `none`. -/
structure State where
  token : String
  lastPull : Time
  available : List AvailableDevice
  deviceStates : Option StateMap
deriving DecidableEq, Repr

/-- The variables as the Go runtime initialises them. -/
def State.initial : State :=
  { token := "", lastPull := 0, available := [], deviceStates := none }

/-- The entries of the state cache; the nil map has none. -/
def State.entries (s : State) : StateMap :=
  match s.deviceStates with
  | none => []
  | some m => m

/-- Reading `deviceStates[id]`, which Go also allows on the nil map. -/
def State.status (s : State) (id : String) : Bool := StateMap.get s.entries id

/-- The world during one call of a plugin method. -/
structure Env where
  /-- The clock as `time.Since` reads it. -/
  clockAtCheck : Time
  /-- The clock as the later `time.Now()` reads it. -/
  clockAtPull : Time
  /-- The answer of `http.NewRequest` on a method and a URL string: the error of its
  validation and of `url.Parse`, or else the URL it parsed, as `URL.String()` writes it. -/
  newRequestURL : String → String → Except GoError String
  /-- The answer of `http.DefaultClient.Do`. -/
  roundTrip : Request → Except GoError Response
  /-- The answer of `json.Unmarshal` into a `ListDevices`. -/
  unmarshal : String → Except GoError ListDevices

inductive LogLevel where
  | Debug
  | Error
deriving DecidableEq, Repr

structure LogLine where
  level : LogLevel
  msg : String
deriving DecidableEq, Repr

/-- What one call leaves behind. -/
structure Outcome (α : Type) where
  value : α
  state : State
  sent : List Request
  logs : List LogLine

/-- Go `http.NewRequest`: unless the method or the URL string is rejected, the request with
the given method and body, the URL parsed from the string, and no header. -/
def NewRequest (env : Env) (method url : String) (body : Option String) :
    Except GoError Request :=
  match env.newRequestURL method url with
  | .error err => .error err
  | .ok parsed => .ok { method := method, url := parsed, body := body, header := [] }

/-- Go `time.Since`. -/
def Since (env : Env) (t : Time) : Duration := timeSub env.clockAtCheck t

/-! ## The plugin methods -/

def OnLoad (s : State) : Outcome (Option GoError) :=
  { value := none, state := s, sent := [],
    logs := [⟨LogLevel.Debug, "Loading LIFX integration plugin!"⟩] }

def GetManifest (s : State) : Outcome PluginManifest :=
  { value := { Id := "lifx", Name := "LIFX Integration Plugin", Author := "Nacdlow",
               Version := "v0.1.0" },
    state := s, sent := [], logs := [] }

def OnDeviceToggle (env : Env) (s : State) (id : String) (status : Bool) :
    Outcome (Option GoError) :=
  let statusStr := if status then "on" else "off"
  let body := "power=" ++ statusStr
  match NewRequest env "PUT" ("https://api.lifx.com/v1/lights/id:" ++ id ++ "/state")
      (some body) with
  | .error err =>
    { value := some err, state := s, sent := [],
      logs := [⟨LogLevel.Error, "on toggle: error creating new request: " ++ err.msg⟩] }
  | .ok req0 =>
    let req1 := req0.setHeader "Authorization" ("Bearer " ++ s.token)
    let req := req1.setHeader "Content-Type" "application/x-www-form-urlencoded"
    match env.roundTrip req with
    | .error err =>
      { value := some err, state := s, sent := [req],
        logs := [⟨LogLevel.Error, "on toggle: error getting response: " ++ err.msg⟩] }
    | .ok _ =>
      let m : StateMap :=
        match s.deviceStates with
        | none => []
        | some m => m
      { value := none, state := { s with deviceStates := some (m.set id status) },
        sent := [req], logs := [] }

def GetPluginConfiguration (s : State) : Outcome (List PluginConfig) :=
  { value := [{ Title := "Personal Integration Token",
                Description := "Get your token from cloud.lifx.com!", Key := "pak",
                Type_ := ConfigType.StringValue, IsUserSpecific := false }],
    state := s, sent := [], logs := [] }

def OnConfigurationUpdate (s : State) (_config : List ConfigKV) : Outcome Unit :=
  { value := (), state := s, sent := [], logs := [] }

def getAllDevices (env : Env) (s : State) : Outcome (Option ListDevices) :=
  match NewRequest env "GET" "https://api.lifx.com/v1/lights/all" none with
  | .error err =>
    { value := none, state := s, sent := [],
      logs := [⟨LogLevel.Error, "get available: error getting new request: " ++ err.msg⟩] }
  | .ok req0 =>
    let req := req0.setHeader "Authorization" ("Bearer " ++ s.token)
    match env.roundTrip req with
    | .error err =>
      { value := none, state := s, sent := [req],
        logs := [⟨LogLevel.Error, "get available: error getting response: " ++ err.msg⟩] }
    | .ok resp =>
      match resp.body with
      | .error err =>
        { value := none, state := s, sent := [req],
          logs := [⟨LogLevel.Error, "get available: error reading body: " ++ err.msg⟩] }
      | .ok body =>
        match env.unmarshal body with
        | .error err =>
          { value := none, state := s, sent := [req],
            logs := [⟨LogLevel.Error, "get available: error unmarshalling: " ++ err.msg⟩] }
        | .ok list => { value := some list, state := s, sent := [req], logs := [] }

/-- The entry `updateLightStatus` appends for a device. -/
def toAvailable (d : Device) : AvailableDevice :=
  { UniqueID := d.ID, ManufacturerName := d.Product.Company, ModelName := d.Product.Name,
    Type_ := 0 }

/-- One pass of the body of the `for _, d := range *list` loop. -/
def refreshStep (acc : List AvailableDevice × StateMap) (d : Device) :
    List AvailableDevice × StateMap :=
  (acc.1 ++ [toAvailable d], acc.2.set d.ID (d.Power == "on"))

/-- The condition guarding the refresh. -/
def refreshDue (env : Env) (lastPull : Time) : Bool :=
  IsZero lastPull || decide (Since env lastPull > 30 * Second)

def updateLightStatus (env : Env) (s : State) : Outcome Unit :=
  let m0 : StateMap :=
    match s.deviceStates with
    | none => []
    | some m => m
  let s1 : State := { s with deviceStates := some m0 }
  if refreshDue env s1.lastPull then
    let s2 : State := { s1 with lastPull := env.clockAtPull }
    let r := getAllDevices env s2
    match r.value with
    | none => { value := (), state := r.state, sent := r.sent, logs := r.logs }
    | some list =>
      let acc := list.foldl refreshStep ([], m0)
      { value := (),
        state := { r.state with available := acc.1, deviceStates := some acc.2 },
        sent := r.sent, logs := r.logs }
  else
    { value := (), state := s1, sent := [], logs := [] }

def GetDeviceStatus (env : Env) (s : State) (id : String) : Outcome Bool :=
  let u := updateLightStatus env s
  { value := u.state.status id, state := u.state, sent := u.sent, logs := u.logs }

def GetAvailableDevices (env : Env) (s : State) : Outcome (List AvailableDevice) :=
  let u := updateLightStatus env s
  { value := u.state.available, state := u.state, sent := u.sent, logs := u.logs }

def GetWebExtensions (s : State) : Outcome (List WebExtension) :=
  { value := [], state := s, sent := [], logs := [] }

/-- The two read operations of the host contract. -/
inductive ReadOp where
  | status (id : String)
  | devices
deriving DecidableEq, Repr

/-- State, requests issued by a read operation. -/
def ReadOp.run (op : ReadOp) (env : Env) (s : State) : State × List Request :=
  match op with
  | .status id => ((GetDeviceStatus env s id).state, (GetDeviceStatus env s id).sent)
  | .devices => ((GetAvailableDevices env s).state, (GetAvailableDevices env s).sent)

/-- The last device of a list that carries the identifier. -/
def lastWithID (list : ListDevices) (id : String) : Option Device :=
  list.reverse.find? (fun d => d.ID == id)

/-- The URL string `getAllDevices` asks `http.NewRequest` to parse. -/
def listURL : String := "https://api.lifx.com/v1/lights/all"

/-- The URL string `OnDeviceToggle` asks `http.NewRequest` to parse. -/
def toggleURL (id : String) : String := "https://api.lifx.com/v1/lights/id:" ++ id ++ "/state"

/-- The request `getAllDevices` hands to the client, `parsed` being the URL that
`http.NewRequest` parsed from `listURL`. -/
def listRequest (parsed token : String) : Request :=
  { method := "GET", url := parsed, body := none,
    header := [("Authorization", "Bearer " ++ token)] }

/-- The request `OnDeviceToggle` hands to the client, `parsed` being the URL that
`http.NewRequest` parsed from `toggleURL id`. -/
def toggleRequest (parsed token : String) (status : Bool) : Request :=
  { method := "PUT", url := parsed,
    body := some ("power=" ++ if status then "on" else "off"),
    header := [("Authorization", "Bearer " ++ token),
               ("Content-Type", "application/x-www-form-urlencoded")] }

/-! ## Sample worlds and states -/

/-- The body of the vendor answer in the scenario with the single bulb `d1`. -/
def sampleBody : String :=
  "[\x7b\"id\":\"d1\",\"power\":\"on\",\"product\":\x7b\"company\":\"LIFX\",\"name\":\"A19\"\x7d\x7d]"

/-- The decoded form of `sampleBody`. -/
def sampleList : ListDevices :=
  [{ ID := "d1", Power := "on", Product := { Company := "LIFX", Name := "A19" } }]

/-- Percent-encoding of the blanks of a text. -/
def escapeBlanks : List Char → List Char
  | [] => []
  | c :: rest => if c = ' ' then '%' :: '2' :: '0' :: escapeBlanks rest else c :: escapeBlanks rest

/-- What `url.Parse` followed by `URL.String()` makes of a URL string in which no character
other than the blank needs escaping: the blanks are written `%20`. -/
def parsedText (url : String) : String := String.mk (escapeBlanks url.toList)

/-- A world whose vendor answers every request with HTTP 200 and `sampleBody`, at clock `t`. -/
def sampleEnv (t : Time) : Env :=
  { clockAtCheck := t, clockAtPull := t,
    newRequestURL := fun _ url => .ok (parsedText url),
    roundTrip := fun _ => .ok { statusCode := 200, body := .ok sampleBody },
    unmarshal := fun b =>
      if b = sampleBody then .ok sampleList else .error ⟨"invalid character"⟩ }

/-- A world without network, at clock `t`. -/
def offlineEnv (t : Time) : Env :=
  { clockAtCheck := t, clockAtPull := t,
    newRequestURL := fun _ url => .ok (parsedText url),
    roundTrip := fun _ => .error ⟨"dial tcp: no route to host"⟩,
    unmarshal := fun _ => .error ⟨"unexpected end of JSON input"⟩ }

/-- A world in which `http.NewRequest` rejects every URL, at clock `t`. -/
def rejectEnv (t : Time) : Env :=
  { clockAtCheck := t, clockAtPull := t,
    newRequestURL := fun _ _ => .error ⟨"net/url: invalid control character in URL"⟩,
    roundTrip := fun _ => .error ⟨"unreachable"⟩,
    unmarshal := fun _ => .error ⟨"unreachable"⟩ }

/-- A state with token `abc`, refreshed at instant `1000`, that caches `d1` as on. -/
def sampleState : State :=
  { token := "abc", lastPull := 1000, available := [], deviceStates := some [("d1", true)] }

/-- The state the first read leaves behind when it refreshes at instant `1000` from the
vendor answer `sampleBody`: `d1` is listed and cached as on. -/
def refreshedState : State :=
  { token := "", lastPull := 1000,
    available := [{ UniqueID := "d1", ManufacturerName := "LIFX", ModelName := "A19",
                    Type_ := 0 }],
    deviceStates := some [("d1", true)] }

/-- The variables at start-up, except that the token is `abc`. -/
def scenarioState : State :=
  { token := "abc", lastPull := 0, available := [], deviceStates := none }

/-- A never refreshed state that still caches the bulb `old` from an earlier toggle. -/
def staleState : State :=
  { token := "abc", lastPull := 0, available := [], deviceStates := some [("old", true)] }

/-! ## Facts about the state cache -/

theorem StateMap.get_set_same (m : StateMap) (k : String) (v : Bool) :
    (m.set k v).get k = v := by
  induction m with
  | nil => simp [StateMap.set, StateMap.get]
  | cons kv rest ih =>
    obtain ⟨a, b⟩ := kv
    by_cases h : a = k
    · simp [StateMap.set, StateMap.get, h]
    · simp [StateMap.set, StateMap.get, h, ih]

theorem StateMap.get_set_other (m : StateMap) (k j : String) (v : Bool) (h : k ≠ j) :
    (m.set k v).get j = m.get j := by
  induction m with
  | nil => simp [StateMap.set, StateMap.get, h]
  | cons kv rest ih =>
    obtain ⟨a, b⟩ := kv
    by_cases hk : a = k
    · subst hk
      simp [StateMap.set, StateMap.get, h]
    · by_cases hj : a = j
      · subst hj
        simp [StateMap.set, StateMap.get, hk]
      · simp [StateMap.set, StateMap.get, hk, hj, ih]

theorem StateMap.get_of_not_mem (m : StateMap) (k : String) (h : k ∉ m.keys) :
    m.get k = false := by
  induction m with
  | nil => rfl
  | cons kv rest ih =>
    obtain ⟨a, b⟩ := kv
    simp only [StateMap.keys, List.map_cons, List.mem_cons, not_or] at h
    have hne : a ≠ k := fun e => h.1 e.symm
    simp only [StateMap.get, hne, if_false]
    exact ih h.2

theorem StateMap.mem_keys_set (m : StateMap) (k j : String) (v : Bool) :
    j ∈ (m.set k v).keys ↔ j = k ∨ j ∈ m.keys := by
  induction m with
  | nil => simp [StateMap.set, StateMap.keys]
  | cons kv rest ih =>
    obtain ⟨a, b⟩ := kv
    by_cases hk : a = k
    · subst hk
      simp [StateMap.set, StateMap.keys]
    · simp only [StateMap.set, hk, if_false]
      simp only [StateMap.keys, List.map_cons, List.mem_cons] at ih ⊢
      rw [ih]
      tauto

theorem StateMap.nodup_keys_set (m : StateMap) (k : String) (v : Bool)
    (h : m.keys.Nodup) : (m.set k v).keys.Nodup := by
  induction m with
  | nil => simp [StateMap.set, StateMap.keys]
  | cons kv rest ih =>
    obtain ⟨a, b⟩ := kv
    have h2 : a ∉ StateMap.keys rest ∧ (StateMap.keys rest).Nodup := by
      simpa [StateMap.keys] using h
    by_cases hk : a = k
    · subst hk
      simpa [StateMap.set, StateMap.keys] using h
    · have hmem : a ∉ (StateMap.set rest k v).keys := by
        rw [StateMap.mem_keys_set]
        exact fun hc => hc.elim hk h2.1
      have hn := ih h2.2
      simp only [StateMap.set, hk, if_false]
      simp only [StateMap.keys, List.map_cons, List.nodup_cons] at hmem hn ⊢
      exact ⟨hmem, hn⟩

/-! ## Facts about the refresh loop -/

theorem foldl_refreshStep_fst (list : ListDevices) (acc : List AvailableDevice × StateMap) :
    (list.foldl refreshStep acc).1 = acc.1 ++ list.map toAvailable := by
  induction list generalizing acc with
  | nil => simp
  | cons d rest ih => simp [List.foldl_cons, ih, refreshStep]

theorem foldl_refreshStep_get (list : ListDevices) (acc : List AvailableDevice × StateMap)
    (id : String) :
    (list.foldl refreshStep acc).2.get id =
      match lastWithID list id with
      | some d => (d.Power == "on")
      | none => acc.2.get id := by
  induction list generalizing acc with
  | nil => simp [lastWithID]
  | cons d rest ih =>
    rw [List.foldl_cons, ih]
    simp only [lastWithID, List.reverse_cons, List.find?_append]
    cases hrest : List.find? (fun d => d.ID == id) rest.reverse with
    | some e => simp
    | none =>
      by_cases hd : d.ID = id
      · subst hd
        simp [refreshStep, StateMap.get_set_same]
      · simp [refreshStep, hd, StateMap.get_set_other]

theorem foldl_refreshStep_mem_keys (list : ListDevices)
    (acc : List AvailableDevice × StateMap) (id : String) :
    id ∈ (list.foldl refreshStep acc).2.keys ↔
      id ∈ acc.2.keys ∨ id ∈ list.map Device.ID := by
  induction list generalizing acc with
  | nil => simp
  | cons d rest ih =>
    rw [List.foldl_cons, ih]
    simp only [refreshStep, StateMap.mem_keys_set, List.map_cons, List.mem_cons]
    tauto

theorem foldl_refreshStep_nodup (list : ListDevices)
    (acc : List AvailableDevice × StateMap) (h : acc.2.keys.Nodup) :
    (list.foldl refreshStep acc).2.keys.Nodup := by
  induction list generalizing acc with
  | nil => simpa using h
  | cons d rest ih =>
    rw [List.foldl_cons]
    exact ih _ (StateMap.nodup_keys_set _ _ _ h)

theorem lastWithID_mem (list : ListDevices) (id : String) (d : Device)
    (h : lastWithID list id = some d) : d ∈ list ∧ d.ID = id := by
  unfold lastWithID at h
  have h1 := List.find?_some h
  have h2 := List.mem_of_find?_eq_some h
  exact ⟨by simpa using h2, by simpa using h1⟩

theorem lastWithID_isSome (list : ListDevices) (d : Device) (h : d ∈ list) :
    ∃ e, lastWithID list d.ID = some e := by
  cases hf : lastWithID list d.ID with
  | some e => exact ⟨e, rfl⟩
  | none =>
    unfold lastWithID at hf
    rw [List.find?_eq_none] at hf
    have := hf d (by simpa using h)
    simp at this

theorem lastWithID_none (list : ListDevices) (id : String)
    (h : id ∉ list.map Device.ID) : lastWithID list id = none := by
  unfold lastWithID
  rw [List.find?_eq_none]
  intro d hd hp
  apply h
  have hd2 : d ∈ list := by simpa using hd
  have : d.ID = id := by simpa using hp
  exact this ▸ List.mem_map_of_mem _ hd2

/-! ## Facts about the vendor GET and the conditional refresh -/

theorem getAllDevices_state (env : Env) (s : State) : (getAllDevices env s).state = s := by
  unfold getAllDevices
  split
  · rfl
  · dsimp only
    split
    · rfl
    · split
      · rfl
      · split <;> rfl

theorem getAllDevices_value_congr (env : Env) (s t : State) (h : s.token = t.token) :
    (getAllDevices env s).value = (getAllDevices env t).value := by
  unfold getAllDevices
  rw [h]
  split
  · rfl
  · dsimp only
    split
    · rfl
    · split
      · rfl
      · split <;> rfl

theorem getAllDevices_sent_congr (env : Env) (s t : State) (h : s.token = t.token) :
    (getAllDevices env s).sent = (getAllDevices env t).sent := by
  unfold getAllDevices
  rw [h]
  split
  · rfl
  · dsimp only
    split
    · rfl
    · split
      · rfl
      · split <;> rfl

theorem getAllDevices_sent (env : Env) (s : State) :
    (getAllDevices env s).sent = [] ∨
      ∃ parsed, env.newRequestURL "GET" listURL = .ok parsed ∧
        (getAllDevices env s).sent = [listRequest parsed s.token] := by
  unfold getAllDevices NewRequest
  cases hn : env.newRequestURL "GET" "https://api.lifx.com/v1/lights/all" with
  | error err => exact Or.inl rfl
  | ok parsed =>
    refine Or.inr ⟨parsed, hn, ?_⟩
    simp only [Request.setHeader, listRequest, List.filter_nil, List.nil_append]
    split
    · rfl
    · split
      · rfl
      · split <;> rfl

theorem updateLightStatus_skip (env : Env) (s : State)
    (h : refreshDue env s.lastPull = false) :
    (updateLightStatus env s).state = { s with deviceStates := some s.entries } ∧
      (updateLightStatus env s).sent = [] := by
  simp [updateLightStatus, h, State.entries]

theorem updateLightStatus_fail (env : Env) (s : State)
    (h : refreshDue env s.lastPull = true) (hfail : (getAllDevices env s).value = none) :
    (updateLightStatus env s).state =
        { s with lastPull := env.clockAtPull, deviceStates := some s.entries } ∧
      (updateLightStatus env s).sent = (getAllDevices env s).sent := by
  have hv := getAllDevices_value_congr env
    { s with deviceStates := some s.entries, lastPull := env.clockAtPull } s rfl
  have hs := getAllDevices_sent_congr env
    { s with deviceStates := some s.entries, lastPull := env.clockAtPull } s rfl
  rw [hfail] at hv
  simp only [State.entries] at hv hs
  simp only [updateLightStatus, h, if_true, State.entries]
  split
  · simp [getAllDevices_state, hs]
  · simp_all

theorem updateLightStatus_ok (env : Env) (s : State) (list : ListDevices)
    (h : refreshDue env s.lastPull = true) (hok : (getAllDevices env s).value = some list) :
    (updateLightStatus env s).state =
        { token := s.token, lastPull := env.clockAtPull,
          available := list.map toAvailable,
          deviceStates := some (list.foldl refreshStep ([], s.entries)).2 } ∧
      (updateLightStatus env s).sent = (getAllDevices env s).sent := by
  have hv := getAllDevices_value_congr env
    { s with deviceStates := some s.entries, lastPull := env.clockAtPull } s rfl
  have hs := getAllDevices_sent_congr env
    { s with deviceStates := some s.entries, lastPull := env.clockAtPull } s rfl
  rw [hok] at hv
  simp only [State.entries] at hv hs
  simp only [updateLightStatus, h, if_true, State.entries]
  split
  · simp_all
  · rename_i l hl
    rw [hv] at hl
    cases hl
    simp [getAllDevices_state, hs, foldl_refreshStep_fst]

theorem refreshDue_recent (env : Env) (t : Time) (hpos : 0 < t)
    (hrecent : (env.clockAtCheck : Int) - (t : Int) ≤ 30 * Second) :
    refreshDue env t = false := by
  have hpos2 : (0 : Nat) < t := hpos
  have hrecent2 : ((env.clockAtCheck : Nat) : Int) - ((t : Nat) : Int) ≤ 30 * 1000000000 :=
    hrecent
  have hz : IsZero t = false := by
    simp only [IsZero, beq_eq_false_iff_ne, ne_eq]
    exact Nat.pos_iff_ne_zero.mp hpos2
  have hs : ¬ (Since env t > 30 * Second) := by
    show ¬ ((30 : Int) * 1000000000 < timeSub env.clockAtCheck t)
    unfold timeSub
    show ¬ ((30 : Int) * 1000000000 <
      if ((env.clockAtCheck : Nat) : Int) - ((t : Nat) : Int) > (2 ^ 63 - 1 : Int)
      then (2 ^ 63 - 1 : Int)
      else if ((env.clockAtCheck : Nat) : Int) - ((t : Nat) : Int) < (-(2 ^ 63) : Int)
        then (-(2 ^ 63) : Int)
        else ((env.clockAtCheck : Nat) : Int) - ((t : Nat) : Int))
    split_ifs <;> omega
  simp [refreshDue, hz, hs]

/-! ## The toggle -/

theorem parsedText_toggleURL_d1 :
    parsedText (toggleURL "d1") = "https://api.lifx.com/v1/lights/id:d1/state" := by
  decide

theorem toggle_newRequest_ok (env : Env) (id : String) (status : Bool) (parsed : String)
    (h : env.newRequestURL "PUT" (toggleURL id) = .ok parsed) :
    NewRequest env "PUT" ("https://api.lifx.com/v1/lights/id:" ++ id ++ "/state")
        (some ("power=" ++ if status then "on" else "off")) =
      .ok { method := "PUT", url := parsed,
            body := some ("power=" ++ if status then "on" else "off"), header := [] } := by
  unfold toggleURL at h
  simp [NewRequest, h]

theorem toggle_headers (parsed token : String) (status : Bool) :
    (Request.setHeader (Request.setHeader
        { method := "PUT", url := parsed,
          body := some ("power=" ++ if status then "on" else "off"), header := [] }
        "Authorization" ("Bearer " ++ token))
      "Content-Type" "application/x-www-form-urlencoded") =
      toggleRequest parsed token status := by
  simp [Request.setHeader, toggleRequest]

theorem OnDeviceToggle_rejected (env : Env) (s : State) (id : String) (status : Bool)
    (e : GoError) (h : env.newRequestURL "PUT" (toggleURL id) = .error e) :
    (OnDeviceToggle env s id status).value = some e ∧
      (OnDeviceToggle env s id status).state = s ∧
      (OnDeviceToggle env s id status).sent = [] := by
  unfold toggleURL at h
  simp [OnDeviceToggle, NewRequest, h]

theorem OnDeviceToggle_netError (env : Env) (s : State) (id : String) (status : Bool)
    (parsed : String) (e : GoError)
    (h : env.newRequestURL "PUT" (toggleURL id) = .ok parsed)
    (hdo : env.roundTrip (toggleRequest parsed s.token status) = .error e) :
    (OnDeviceToggle env s id status).value = some e ∧
      (OnDeviceToggle env s id status).state = s ∧
      (OnDeviceToggle env s id status).sent = [toggleRequest parsed s.token status] := by
  have h1 := toggle_newRequest_ok env id status parsed h
  have h2 := toggle_headers parsed s.token status
  simp only [OnDeviceToggle]
  rw [h1]
  simp only [h2, hdo]
  simp

theorem OnDeviceToggle_response (env : Env) (s : State) (id : String) (status : Bool)
    (parsed : String) (resp : Response)
    (h : env.newRequestURL "PUT" (toggleURL id) = .ok parsed)
    (hdo : env.roundTrip (toggleRequest parsed s.token status) = .ok resp) :
    (OnDeviceToggle env s id status).value = none ∧
      (OnDeviceToggle env s id status).state =
        { s with deviceStates := some (s.entries.set id status) } ∧
      (OnDeviceToggle env s id status).sent = [toggleRequest parsed s.token status] := by
  have h1 := toggle_newRequest_ok env id status parsed h
  have h2 := toggle_headers parsed s.token status
  simp only [OnDeviceToggle]
  rw [h1]
  simp only [h2, hdo, State.entries]
  simp

theorem OnDeviceToggle_sent (env : Env) (s : State) (id : String) (status : Bool) :
    (OnDeviceToggle env s id status).sent = [] ∨
      ∃ parsed, env.newRequestURL "PUT" (toggleURL id) = .ok parsed ∧
        (OnDeviceToggle env s id status).sent = [toggleRequest parsed s.token status] := by
  cases hn : env.newRequestURL "PUT" (toggleURL id) with
  | error e => exact Or.inl (OnDeviceToggle_rejected env s id status e hn).2.2
  | ok parsed =>
    refine Or.inr ⟨parsed, rfl, ?_⟩
    cases hd : env.roundTrip (toggleRequest parsed s.token status) with
    | error e => exact (OnDeviceToggle_netError env s id status parsed e hn hd).2.2
    | ok resp => exact (OnDeviceToggle_response env s id status parsed resp hn hd).2.2

/-- C1: when `http.NewRequest` accepts the URL and the client returns a response (whatever
its status code), `OnDeviceToggle(id, status)` returns nil, touches nothing but the state
cache, and caches `status` for `id`; this holds in every state, also when the cache is the
nil map and no refresh ever ran.  A `GetDeviceStatus(id)` that follows while the refresh
timestamp is non-zero and at most 30 seconds old issues no request and returns `status`. -/
theorem toggle_success_then_status (env : Env) (s : State) (id : String) (status : Bool)
    (parsed : String) (resp : Response)
    (hreq : env.newRequestURL "PUT" (toggleURL id) = .ok parsed)
    (hdo : env.roundTrip (toggleRequest parsed s.token status) = .ok resp) :
    (OnDeviceToggle env s id status).value = none ∧
      (OnDeviceToggle env s id status).state.status id = status ∧
      id ∈ (OnDeviceToggle env s id status).state.entries.keys ∧
      (OnDeviceToggle env s id status).state.token = s.token ∧
      (OnDeviceToggle env s id status).state.lastPull = s.lastPull ∧
      (OnDeviceToggle env s id status).state.available = s.available ∧
      (∀ env2 : Env, IsZero s.lastPull = false → Since env2 s.lastPull ≤ 30 * Second →
        (GetDeviceStatus env2 (OnDeviceToggle env s id status).state id).sent = [] ∧
        (GetDeviceStatus env2 (OnDeviceToggle env s id status).state id).value = status) := by
  obtain ⟨hv, hs, _⟩ := OnDeviceToggle_response env s id status parsed resp hreq hdo
  refine ⟨hv, ?_, ?_, ?_, ?_, ?_, ?_⟩
  · rw [hs]; simp [State.status, State.entries, StateMap.get_set_same]
  · rw [hs]; simp [State.entries, StateMap.mem_keys_set]
  · rw [hs]
  · rw [hs]
  · rw [hs]
  · intro env2 hnonzero hrecent
    have hdue : refreshDue env2 (OnDeviceToggle env s id status).state.lastPull = false := by
      rw [hs]
      simp [refreshDue, hnonzero, not_lt.mpr hrecent]
    obtain ⟨hu, hsent⟩ := updateLightStatus_skip env2 _ hdue
    refine ⟨?_, ?_⟩
    · simp [GetDeviceStatus, hsent]
    · simp only [GetDeviceStatus, hu]
      rw [hs]
      simp [State.status, State.entries, StateMap.get_set_same]

theorem toggle_success_then_status_witness :
    ((GetAvailableDevices (sampleEnv 1000) State.initial).state = refreshedState ∧
      (sampleEnv 2000).newRequestURL "PUT" (toggleURL "d1") =
        .ok "https://api.lifx.com/v1/lights/id:d1/state" ∧
      IsZero refreshedState.lastPull = false ∧
      Since (sampleEnv 5000001000) refreshedState.lastPull ≤ 30 * Second ∧
      (GetDeviceStatus (sampleEnv 5000001000) refreshedState "d1").value = true ∧
      (OnDeviceToggle (sampleEnv 2000) refreshedState "d1" false).value = none ∧
      (GetDeviceStatus (sampleEnv 5000001000)
        (OnDeviceToggle (sampleEnv 2000) refreshedState "d1" false).state "d1").value =
          false) ∧
    (State.initial.deviceStates = none ∧
      State.initial.status "d1" = false ∧
      (OnDeviceToggle (sampleEnv 2000) State.initial "d1" true).value = none ∧
      (OnDeviceToggle (sampleEnv 2000) State.initial "d1" true).state.status "d1" = true) :=
  have h := toggle_success_then_status (sampleEnv 2000) refreshedState "d1" false
    "https://api.lifx.com/v1/lights/id:d1/state"
    { statusCode := 200, body := .ok sampleBody }
    (congrArg Except.ok parsedText_toggleURL_d1) rfl
  have g := toggle_success_then_status (sampleEnv 2000) State.initial "d1" true
    "https://api.lifx.com/v1/lights/id:d1/state"
    { statusCode := 200, body := .ok sampleBody }
    (congrArg Except.ok parsedText_toggleURL_d1) rfl
  ⟨⟨by decide, congrArg Except.ok parsedText_toggleURL_d1, rfl, by decide, by decide, h.1,
     (h.2.2.2.2.2.2 (sampleEnv 5000001000) rfl (by decide)).2⟩,
   ⟨rfl, rfl, g.1, g.2.1⟩⟩

/-- C2: when `http.NewRequest` fails, or the client returns an error, `OnDeviceToggle`
returns exactly that error and the whole state (token, state cache, available list, refresh
timestamp) is the state before the call; and whenever it returns an error, one of these two
failures produced it. -/
theorem toggle_failure_leaves_state (env : Env) (s : State) (id : String) (status : Bool)
    (e : GoError) :
    (env.newRequestURL "PUT" (toggleURL id) = .error e →
        (OnDeviceToggle env s id status).value = some e ∧
        (OnDeviceToggle env s id status).state = s) ∧
      (∀ parsed, env.newRequestURL "PUT" (toggleURL id) = .ok parsed →
        env.roundTrip (toggleRequest parsed s.token status) = .error e →
        (OnDeviceToggle env s id status).value = some e ∧
        (OnDeviceToggle env s id status).state = s) ∧
      ((OnDeviceToggle env s id status).value = some e →
        env.newRequestURL "PUT" (toggleURL id) = .error e ∨
        ∃ parsed, env.newRequestURL "PUT" (toggleURL id) = .ok parsed ∧
          env.roundTrip (toggleRequest parsed s.token status) = .error e) := by
  refine ⟨fun h => ?_, fun parsed h hdo => ?_, fun hv => ?_⟩
  · exact ⟨(OnDeviceToggle_rejected env s id status e h).1,
      (OnDeviceToggle_rejected env s id status e h).2.1⟩
  · exact ⟨(OnDeviceToggle_netError env s id status parsed e h hdo).1,
      (OnDeviceToggle_netError env s id status parsed e h hdo).2.1⟩
  · cases hn : env.newRequestURL "PUT" (toggleURL id) with
    | error e2 =>
      rw [(OnDeviceToggle_rejected env s id status e2 hn).1] at hv
      cases hv
      exact Or.inl rfl
    | ok parsed =>
      refine Or.inr ⟨parsed, rfl, ?_⟩
      cases hd : env.roundTrip (toggleRequest parsed s.token status) with
      | error e2 =>
        rw [(OnDeviceToggle_netError env s id status parsed e2 hn hd).1] at hv
        cases hv
        rfl
      | ok resp =>
        rw [(OnDeviceToggle_response env s id status parsed resp hn hd).1] at hv
        cases hv

theorem toggle_failure_leaves_state_witness :
    ((offlineEnv 2000).newRequestURL "PUT" (toggleURL "d1") =
        .ok "https://api.lifx.com/v1/lights/id:d1/state" ∧
      (offlineEnv 2000).roundTrip
          (toggleRequest "https://api.lifx.com/v1/lights/id:d1/state" sampleState.token
            false) =
        .error ⟨"dial tcp: no route to host"⟩ ∧
      (OnDeviceToggle (offlineEnv 2000) sampleState "d1" false).value =
        some ⟨"dial tcp: no route to host"⟩ ∧
      (OnDeviceToggle (offlineEnv 2000) sampleState "d1" false).state = sampleState) ∧
    ((rejectEnv 2000).newRequestURL "PUT" (toggleURL "d1") =
        .error ⟨"net/url: invalid control character in URL"⟩ ∧
      (OnDeviceToggle (rejectEnv 2000) sampleState "d1" false).value =
        some ⟨"net/url: invalid control character in URL"⟩ ∧
      (OnDeviceToggle (rejectEnv 2000) sampleState "d1" false).state = sampleState) :=
  ⟨⟨congrArg Except.ok parsedText_toggleURL_d1, rfl,
    (toggle_failure_leaves_state (offlineEnv 2000) sampleState "d1" false
      ⟨"dial tcp: no route to host"⟩).2.1 "https://api.lifx.com/v1/lights/id:d1/state"
      (congrArg Except.ok parsedText_toggleURL_d1) rfl⟩,
   ⟨rfl,
    (toggle_failure_leaves_state (rejectEnv 2000) sampleState "d1" false
      ⟨"net/url: invalid control character in URL"⟩).1 rfl⟩⟩

/-- C9 (as stated, refuted): for the identifier `a b` the URL string the plugin builds holds a
blank, so the URL of the request the client receives is not that string: the parser has
written the blank as `%20`. -/
theorem toggle_url_is_reparsed :
    (OnDeviceToggle (sampleEnv 2000) refreshedState "a b" true).sent.map Request.url =
        ["https://api.lifx.com/v1/lights/id:a%20b/state"] ∧
      (OnDeviceToggle (sampleEnv 2000) refreshedState "a b" true).sent.map Request.url ≠
        ["https://api.lifx.com/v1/lights/id:" ++ "a b" ++ "/state"] := by
  decide

/-- C9 (amended): `OnDeviceToggle(id, status)` asks `http.NewRequest` for a PUT to the URL
string `https://api.lifx.com/v1/lights/id:` followed by `id` and `/state`, and hands at most
one request to the client, exactly one when `http.NewRequest` accepts that string.  The
request has method PUT, the URL that `http.NewRequest` parsed from that string (the string
itself whenever parsing leaves it as it is), the body `power=on` for `status = true` and
`power=off` for `status = false`, the header `Content-Type` set to
`application/x-www-form-urlencoded` and the header `Authorization` set to `Bearer ` followed
by the stored token; in any other state and world the body for the same `status` is the
same. -/
theorem toggle_request_shape (env : Env) (s : State) (id : String) (status : Bool) :
    ((OnDeviceToggle env s id status).sent.length ≤ 1) ∧
    (∀ e, env.newRequestURL "PUT" ("https://api.lifx.com/v1/lights/id:" ++ id ++ "/state") =
        .error e → (OnDeviceToggle env s id status).sent = []) ∧
    (∀ parsed,
      env.newRequestURL "PUT" ("https://api.lifx.com/v1/lights/id:" ++ id ++ "/state") =
        .ok parsed →
      (OnDeviceToggle env s id status).sent = [toggleRequest parsed s.token status]) ∧
    (∀ r ∈ (OnDeviceToggle env s id status).sent,
      r.method = "PUT" ∧
      env.newRequestURL "PUT" ("https://api.lifx.com/v1/lights/id:" ++ id ++ "/state") =
        .ok r.url ∧
      (env.newRequestURL "PUT" ("https://api.lifx.com/v1/lights/id:" ++ id ++ "/state") =
          .ok ("https://api.lifx.com/v1/lights/id:" ++ id ++ "/state") →
        r.url = "https://api.lifx.com/v1/lights/id:" ++ id ++ "/state") ∧
      r.body = some (if status then "power=on" else "power=off") ∧
      r.getHeader "Content-Type" = some "application/x-www-form-urlencoded" ∧
      r.getHeader "Authorization" = some ("Bearer " ++ s.token) ∧
      ∀ (env2 : Env) (s2 : State) (id2 : String),
        ∀ r2 ∈ (OnDeviceToggle env2 s2 id2 status).sent, r2.body = r.body) := by
  have hbody : ∀ (parsed token : String),
      (toggleRequest parsed token status).body =
        some (if status then "power=on" else "power=off") := by
    intro parsed token
    cases status <;> rfl
  have hone : ∀ parsed, env.newRequestURL "PUT" (toggleURL id) = .ok parsed →
      (OnDeviceToggle env s id status).sent = [toggleRequest parsed s.token status] := by
    intro parsed hn
    rcases OnDeviceToggle_sent env s id status with h0 | ⟨p2, hp2, h1⟩
    · cases hd : env.roundTrip (toggleRequest parsed s.token status) with
      | error e => exact (OnDeviceToggle_netError env s id status parsed e hn hd).2.2
      | ok resp => exact (OnDeviceToggle_response env s id status parsed resp hn hd).2.2
    · rw [hn] at hp2
      cases hp2
      exact h1
  refine ⟨?_, fun e hn => ?_, hone, fun r hr => ?_⟩
  · rcases OnDeviceToggle_sent env s id status with h0 | ⟨p2, _, h1⟩
    · simp [h0]
    · simp [h1]
  · exact (OnDeviceToggle_rejected env s id status e hn).2.2
  · rcases OnDeviceToggle_sent env s id status with h0 | ⟨parsed, hp, h1⟩
    · rw [h0] at hr; cases hr
    · rw [h1] at hr
      have hreq : r = toggleRequest parsed s.token status := by simpa using hr
      subst hreq
      have hp2 : env.newRequestURL "PUT"
          ("https://api.lifx.com/v1/lights/id:" ++ id ++ "/state") = .ok parsed := hp
      refine ⟨rfl, hp2, ?_, hbody _ _, ?_, ?_, ?_⟩
      · intro hecho
        rw [hp2] at hecho
        cases hecho
        rfl
      · simp [Request.getHeader, toggleRequest]
      · simp [Request.getHeader, toggleRequest]
      · intro env2 s2 id2 r2 hr2
        rcases OnDeviceToggle_sent env2 s2 id2 status with h0 | ⟨p2, _, h2⟩
        · rw [h0] at hr2; cases hr2
        · rw [h2] at hr2
          have : r2 = toggleRequest p2 s2.token status := by simpa using hr2
          rw [this, hbody, hbody]

theorem toggle_request_shape_witness :
    (sampleEnv 2000).newRequestURL "PUT"
        ("https://api.lifx.com/v1/lights/id:" ++ "d1" ++ "/state") =
      .ok "https://api.lifx.com/v1/lights/id:d1/state" ∧
    (OnDeviceToggle (sampleEnv 2000) sampleState "d1" false).sent =
      [{ method := "PUT", url := "https://api.lifx.com/v1/lights/id:d1/state",
         body := some "power=off",
         header := [("Authorization", "Bearer abc"),
                    ("Content-Type", "application/x-www-form-urlencoded")] }] :=
  ⟨congrArg Except.ok parsedText_toggleURL_d1,
    (toggle_request_shape (sampleEnv 2000) sampleState "d1" false).2.2.1
      "https://api.lifx.com/v1/lights/id:d1/state"
      (congrArg Except.ok parsedText_toggleURL_d1)⟩

/-- C10: `GetManifest` and `GetPluginConfiguration` return the same value in every two
states, leave the state as it is and issue no request; the manifest is id `lifx`, name
`LIFX Integration Plugin`, author `Nacdlow`, version `v0.1.0`, and the configuration is
exactly one entry, with key `pak`, of string type and not user-specific. -/
theorem manifest_and_configuration_pure (s t : State) :
    (GetManifest s).value = (GetManifest t).value ∧
      (GetManifest s).state = s ∧ (GetManifest s).sent = [] ∧
      (GetManifest s).value.Id = "lifx" ∧
      (GetManifest s).value.Name = "LIFX Integration Plugin" ∧
      (GetManifest s).value.Author = "Nacdlow" ∧
      (GetManifest s).value.Version = "v0.1.0" ∧
      (GetPluginConfiguration s).value = (GetPluginConfiguration t).value ∧
      (GetPluginConfiguration s).state = s ∧ (GetPluginConfiguration s).sent = [] ∧
      (GetPluginConfiguration s).value.length = 1 ∧
      (GetPluginConfiguration s).value.map PluginConfig.Key = ["pak"] ∧
      (GetPluginConfiguration s).value.map PluginConfig.Type_ = [ConfigType.StringValue] ∧
      (GetPluginConfiguration s).value.map PluginConfig.IsUserSpecific = [false] :=
  ⟨rfl, rfl, rfl, rfl, rfl, rfl, rfl, rfl, rfl, rfl, rfl, rfl, rfl, rfl⟩

/-- C8 (the code departs from the claim): `OnConfigurationUpdate` leaves every variable as
it was, whatever the entries; after an update that carries the value `abc` for the key `pak`
the token is still empty, and the toggle PUT and the list GET both carry the header
`Authorization: Bearer ` with nothing after the blank. -/
theorem configuration_update_ignores_token :
    (∀ (s : State) (config : List ConfigKV), (OnConfigurationUpdate s config).state = s) ∧
      (OnConfigurationUpdate State.initial [⟨"pak", "abc"⟩]).state.token = "" ∧
      (OnDeviceToggle (sampleEnv 2000)
          (OnConfigurationUpdate State.initial [⟨"pak", "abc"⟩]).state "d1" true).sent.map
        (fun r => r.getHeader "Authorization") = [some "Bearer "] ∧
      (GetAvailableDevices (sampleEnv 2000)
          (OnConfigurationUpdate State.initial [⟨"pak", "abc"⟩]).state).sent.map
        (fun r => r.getHeader "Authorization") = [some "Bearer "] :=
  ⟨fun _ _ => rfl, rfl, by decide, by decide⟩

/-! ## The read operations -/

theorem ReadOp.run_eq (op : ReadOp) (env : Env) (s : State) :
    op.run env s = ((updateLightStatus env s).state, (updateLightStatus env s).sent) := by
  cases op <;> rfl

theorem updateLightStatus_sent (env : Env) (s : State) :
    (updateLightStatus env s).sent = [] ∨
      ∃ parsed, env.newRequestURL "GET" listURL = .ok parsed ∧
        (updateLightStatus env s).sent = [listRequest parsed s.token] := by
  cases h : refreshDue env s.lastPull with
  | false => exact Or.inl (updateLightStatus_skip env s h).2
  | true =>
    cases hv : (getAllDevices env s).value with
    | none => rw [(updateLightStatus_fail env s h hv).2]; exact getAllDevices_sent env s
    | some list => rw [(updateLightStatus_ok env s list h hv).2]; exact getAllDevices_sent env s

theorem updateLightStatus_token (env : Env) (s : State) :
    (updateLightStatus env s).state.token = s.token := by
  cases h : refreshDue env s.lastPull with
  | false => rw [(updateLightStatus_skip env s h).1]
  | true =>
    cases hv : (getAllDevices env s).value with
    | none => rw [(updateLightStatus_fail env s h hv).1]
    | some list => rw [(updateLightStatus_ok env s list h hv).1]

theorem updateLightStatus_lastPull (env : Env) (s : State)
    (h : refreshDue env s.lastPull = true) :
    (updateLightStatus env s).state.lastPull = env.clockAtPull := by
  cases hv : (getAllDevices env s).value with
  | none => rw [(updateLightStatus_fail env s h hv).1]
  | some list => rw [(updateLightStatus_ok env s list h hv).1]

theorem status_after_skip (env : Env) (s : State) (id : String)
    (h : refreshDue env s.lastPull = false) :
    (updateLightStatus env s).state.status id = s.status id := by
  rw [(updateLightStatus_skip env s h).1]
  rfl

theorem status_after_fail (env : Env) (s : State) (id : String)
    (h : refreshDue env s.lastPull = true) (hfail : (getAllDevices env s).value = none) :
    (updateLightStatus env s).state.status id = s.status id := by
  rw [(updateLightStatus_fail env s h hfail).1]
  rfl

theorem status_after_refresh (env : Env) (s : State) (list : ListDevices) (id : String)
    (h : refreshDue env s.lastPull = true) (hok : (getAllDevices env s).value = some list) :
    (updateLightStatus env s).state.status id =
      match lastWithID list id with
      | some d => (d.Power == "on")
      | none => s.status id := by
  rw [(updateLightStatus_ok env s list h hok).1]
  exact foldl_refreshStep_get list ([], s.entries) id

theorem entries_after_refresh (env : Env) (s : State) (list : ListDevices)
    (h : refreshDue env s.lastPull = true) (hok : (getAllDevices env s).value = some list) :
    (updateLightStatus env s).state.entries = (list.foldl refreshStep ([], s.entries)).2 := by
  rw [(updateLightStatus_ok env s list h hok).1]
  rfl

theorem status_of_agreeing (list : ListDevices) (d : Device) (fallback : Bool)
    (hd : d ∈ list) (hagree : ∀ e ∈ list, e.ID = d.ID → e.Power = d.Power) :
    (match lastWithID list d.ID with
      | some e => (e.Power == "on")
      | none => fallback) = (d.Power == "on") := by
  obtain ⟨e, he⟩ := lastWithID_isSome list d hd
  rw [he]
  obtain ⟨hmem, hid⟩ := lastWithID_mem list d.ID e he
  simp only [hagree e hmem hid]

/-- C3 (as stated, refuted): a never refreshed state that caches the bulb `old` is refreshed
from a vendor answer that lists the single bulb `d1`; afterwards the state cache holds two
entries, not one, and `old` is still a key although the answer does not list it. -/
theorem refresh_keeps_unlisted_entries :
    refreshDue (sampleEnv 2000) staleState.lastPull = true ∧
      (getAllDevices (sampleEnv 2000) staleState).value = some sampleList ∧
      sampleList.length = 1 ∧
      (GetAvailableDevices (sampleEnv 2000) staleState).state.entries =
        [("old", true), ("d1", true)] ∧
      (GetAvailableDevices (sampleEnv 2000) staleState).state.entries.length ≠
        sampleList.length ∧
      (GetAvailableDevices (sampleEnv 2000) staleState).state.entries.keys ≠
        sampleList.map Device.ID := by
  decide

/-- C3 (amended): after a read operation performs a successful refresh from a vendor answer
`list`, starting from a state cache that holds each of its keys once (as every Go map
does), the keys of the state cache are the keys it had before together with the identifiers
in `list`; the value of a listed identifier is true exactly when the power field of the last
listed device with that identifier is `on`; an identifier that is not listed keeps its
value; the number of entries is the number of distinct identifiers among the old keys and
the listed ones.  Hence, when the listed identifiers are pairwise distinct and the cache held
no other key, the cache has exactly as many entries as `list`, keyed by its identifiers, each
with the value `power == "on"` of its device. -/
theorem refresh_merges_into_cache (op : ReadOp) (env : Env) (s : State) (list : ListDevices)
    (hdue : refreshDue env s.lastPull = true)
    (hok : (getAllDevices env s).value = some list)
    (hwf : s.entries.keys.Nodup) :
    (∀ id, id ∈ (op.run env s).1.entries.keys ↔
        id ∈ s.entries.keys ∨ id ∈ list.map Device.ID) ∧
      (∀ d ∈ list, ∃ e, lastWithID list d.ID = some e ∧
        (op.run env s).1.status d.ID = (e.Power == "on")) ∧
      (∀ id, id ∉ list.map Device.ID → (op.run env s).1.status id = s.status id) ∧
      (op.run env s).1.entries.keys.Nodup ∧
      (op.run env s).1.entries.length =
        (s.entries.keys.toFinset ∪ (list.map Device.ID).toFinset).card ∧
      ((list.map Device.ID).Nodup → (∀ k ∈ s.entries.keys, k ∈ list.map Device.ID) →
        (op.run env s).1.entries.length = list.length ∧
        (∀ id, id ∈ (op.run env s).1.entries.keys ↔ id ∈ list.map Device.ID) ∧
        ∀ d ∈ list, (op.run env s).1.status d.ID = (d.Power == "on")) := by
  rw [ReadOp.run_eq]
  simp only
  have hkeys : ∀ id, id ∈ (updateLightStatus env s).state.entries.keys ↔
      id ∈ s.entries.keys ∨ id ∈ list.map Device.ID := by
    intro id
    rw [entries_after_refresh env s list hdue hok]
    exact foldl_refreshStep_mem_keys list ([], s.entries) id
  have hnodup : (updateLightStatus env s).state.entries.keys.Nodup := by
    rw [entries_after_refresh env s list hdue hok]
    exact foldl_refreshStep_nodup list ([], s.entries) hwf
  have hcard : (updateLightStatus env s).state.entries.length =
      (s.entries.keys.toFinset ∪ (list.map Device.ID).toFinset).card := by
    have hlen : (updateLightStatus env s).state.entries.length =
        (updateLightStatus env s).state.entries.keys.length := by
      simp [StateMap.keys]
    rw [hlen, ← List.toFinset_card_of_nodup hnodup]
    congr 1
    ext id
    simp only [List.mem_toFinset, Finset.mem_union]
    exact hkeys id
  have hlast : ∀ d ∈ list, ∃ e, lastWithID list d.ID = some e ∧
      (updateLightStatus env s).state.status d.ID = (e.Power == "on") := by
    intro d hd
    obtain ⟨e, he⟩ := lastWithID_isSome list d hd
    refine ⟨e, he, ?_⟩
    rw [status_after_refresh env s list d.ID hdue hok, he]
  refine ⟨hkeys, hlast, ?_, hnodup, hcard, ?_⟩
  · intro id hid
    rw [status_after_refresh env s list id hdue hok, lastWithID_none list id hid]
  · intro hdistinct hsub
    refine ⟨?_, ?_, ?_⟩
    · rw [hcard]
      have hunion : s.entries.keys.toFinset ∪ (list.map Device.ID).toFinset =
          (list.map Device.ID).toFinset := by
        apply Finset.union_eq_right.mpr
        intro k hk
        rw [List.mem_toFinset] at hk ⊢
        exact hsub k hk
      rw [hunion, List.toFinset_card_of_nodup hdistinct, List.length_map]
    · intro id
      rw [hkeys id]
      exact ⟨fun h => h.elim (hsub id) (fun hm => hm), Or.inr⟩
    · intro d hd
      rw [status_after_refresh env s list d.ID hdue hok]
      apply status_of_agreeing list d _ hd
      intro e he hid
      have := List.inj_on_of_nodup_map hdistinct he hd hid
      rw [this]

theorem refresh_merges_into_cache_witness :
    (refreshDue (sampleEnv 2000) staleState.lastPull = true ∧
      (getAllDevices (sampleEnv 2000) staleState).value = some sampleList ∧
      staleState.entries.keys.Nodup ∧
      ((ReadOp.status "d1").run (sampleEnv 2000) staleState).1.entries.length =
        (staleState.entries.keys.toFinset ∪ (sampleList.map Device.ID).toFinset).card ∧
      ((ReadOp.status "d1").run (sampleEnv 2000) staleState).1.status "old" =
        staleState.status "old") ∧
    (refreshDue (sampleEnv 40000000000) sampleState.lastPull = true ∧
      (getAllDevices (sampleEnv 40000000000) sampleState).value = some sampleList ∧
      sampleState.entries.keys.Nodup ∧ (sampleList.map Device.ID).Nodup ∧
      (∀ k ∈ sampleState.entries.keys, k ∈ sampleList.map Device.ID) ∧
      (ReadOp.devices.run (sampleEnv 40000000000) sampleState).1.entries.length =
        sampleList.length) :=
  have h := refresh_merges_into_cache (ReadOp.status "d1") (sampleEnv 2000) staleState
    sampleList (by decide) (by decide) (by decide)
  have g := refresh_merges_into_cache ReadOp.devices (sampleEnv 40000000000) sampleState
    sampleList (by decide) (by decide) (by decide)
  ⟨⟨by decide, by decide, by decide, h.2.2.2.2.1, h.2.2.1 "old" (by decide)⟩,
   ⟨by decide, by decide, by decide, by decide, by decide,
    (g.2.2.2.2.2 (by decide) (by decide)).1⟩⟩

/-- C4: when a call of `GetAvailableDevices` performs a successful refresh from the decoded
vendor list `list`, it returns one entry per device of `list`, in the same order, the i-th
with `UniqueID`, `ManufacturerName`, `ModelName` taken from the identifier, the product
company and the product name of the i-th device and with `Type` 0, whatever list was cached
before; a `GetDeviceStatus` for the identifier of a listed device, performed by the same
refresh or afterwards without a new refresh, returns true exactly when the power field of the
device with that identifier (one power value for all listed devices that carry it) is `on`;
in every case it returns whether the power field of the last listed device with that
identifier is `on`. -/
theorem refresh_lists_devices (env : Env) (s : State) (list : ListDevices)
    (hdue : refreshDue env s.lastPull = true)
    (hok : (getAllDevices env s).value = some list) :
    (GetAvailableDevices env s).value = list.map toAvailable ∧
      (GetAvailableDevices env s).value.length = list.length ∧
      (∀ (i : Nat) (d : Device), list[i]? = some d →
        ∃ a, (GetAvailableDevices env s).value[i]? = some a ∧ a.UniqueID = d.ID ∧
          a.ManufacturerName = d.Product.Company ∧ a.ModelName = d.Product.Name ∧
          a.Type_ = 0) ∧
      (∀ d ∈ list, (∀ e ∈ list, e.ID = d.ID → e.Power = d.Power) →
        (GetDeviceStatus env s d.ID).value = (d.Power == "on") ∧
        ∀ env2 : Env, refreshDue env2 (GetAvailableDevices env s).state.lastPull = false →
          (GetDeviceStatus env2 (GetAvailableDevices env s).state d.ID).value =
            (d.Power == "on")) ∧
      (∀ d ∈ list, ∃ e, lastWithID list d.ID = some e ∧
        (GetDeviceStatus env s d.ID).value = (e.Power == "on")) := by
  have hval : (GetAvailableDevices env s).value = list.map toAvailable := by
    simp only [GetAvailableDevices]
    rw [(updateLightStatus_ok env s list hdue hok).1]
  refine ⟨hval, ?_, ?_, ?_, ?_⟩
  · rw [hval, List.length_map]
  · intro i d hd
    refine ⟨toAvailable d, ?_, rfl, rfl, rfl, rfl⟩
    rw [hval, List.getElem?_map, hd]
    rfl
  · intro d hd hagree
    have hfirst : (updateLightStatus env s).state.status d.ID = (d.Power == "on") := by
      rw [status_after_refresh env s list d.ID hdue hok]
      exact status_of_agreeing list d _ hd hagree
    refine ⟨hfirst, ?_⟩
    intro env2 hskip
    exact (status_after_skip env2 (updateLightStatus env s).state d.ID hskip).trans hfirst
  · intro d hd
    obtain ⟨e, he⟩ := lastWithID_isSome list d hd
    refine ⟨e, he, ?_⟩
    show (updateLightStatus env s).state.status d.ID = _
    rw [status_after_refresh env s list d.ID hdue hok, he]

theorem refresh_lists_devices_witness :
    refreshDue (sampleEnv 2000) scenarioState.lastPull = true ∧
      (getAllDevices (sampleEnv 2000) scenarioState).value =
        some sampleList ∧
      (GetAvailableDevices (sampleEnv 2000) scenarioState).value =
        [{ UniqueID := "d1", ManufacturerName := "LIFX", ModelName := "A19", Type_ := 0 }] ∧
      (GetDeviceStatus (sampleEnv 2000) scenarioState "d1").value =
        true :=
  have h := refresh_lists_devices (sampleEnv 2000) scenarioState
    sampleList (by decide) (by decide)
  ⟨by decide, by decide, h.1,
    (h.2.2.2.1 { ID := "d1", Power := "on", Product := { Company := "LIFX", Name := "A19" } }
      (by decide) (by decide)).1⟩

/-- C5: when a read operation attempts a refresh and `getAllDevices` returns nil, the
available list, the entries of the state map and every status read from it, and the token
are as before the call, and the refresh timestamp is the instant `time.Now()` returned at
the attempt; as that instant is not the zero instant, every read operation whose clock is at
most 30 seconds past it hands no request to the client. -/
theorem failed_refresh_keeps_cache (op op2 : ReadOp) (env env2 : Env) (s : State)
    (hdue : refreshDue env s.lastPull = true)
    (hfail : (getAllDevices env s).value = none)
    (hclock : 0 < env.clockAtPull)
    (hsoon : (env2.clockAtCheck : Int) - (env.clockAtPull : Int) ≤ 30 * Second) :
    (op.run env s).1.available = s.available ∧
      (op.run env s).1.entries = s.entries ∧
      (∀ id, (op.run env s).1.status id = s.status id) ∧
      (op.run env s).1.token = s.token ∧
      (op.run env s).1.lastPull = env.clockAtPull ∧
      (op2.run env2 (op.run env s).1).2 = [] := by
  rw [ReadOp.run_eq, ReadOp.run_eq]
  simp only
  have hst := (updateLightStatus_fail env s hdue hfail).1
  have hskip : refreshDue env2 (updateLightStatus env s).state.lastPull = false := by
    rw [hst]
    exact refreshDue_recent env2 env.clockAtPull hclock hsoon
  refine ⟨?_, ?_, ?_, ?_, ?_, ?_⟩
  · rw [hst]
  · rw [hst]; rfl
  · intro id
    exact status_after_fail env s id hdue hfail
  · rw [hst]
  · rw [hst]
  · exact (updateLightStatus_skip env2 _ hskip).2

theorem failed_refresh_keeps_cache_witness :
    refreshDue (offlineEnv 40000000000) sampleState.lastPull = true ∧
      (getAllDevices (offlineEnv 40000000000) sampleState).value = none ∧
      0 < (offlineEnv 40000000000).clockAtPull ∧
      ((sampleEnv 70000000000).clockAtCheck : Int) -
        ((offlineEnv 40000000000).clockAtPull : Int) ≤ 30 * Second ∧
      (ReadOp.devices.run (offlineEnv 40000000000) sampleState).1.entries =
        sampleState.entries ∧
      (ReadOp.devices.run (offlineEnv 40000000000) sampleState).1.lastPull = 40000000000 ∧
      ((ReadOp.status "d1").run (sampleEnv 70000000000)
        (ReadOp.devices.run (offlineEnv 40000000000) sampleState).1).2 = [] :=
  have h := failed_refresh_keeps_cache ReadOp.devices (ReadOp.status "d1")
    (offlineEnv 40000000000) (sampleEnv 70000000000) sampleState
    (by decide) (by decide) (by decide) (by decide)
  ⟨by decide, by decide, by decide, by decide, h.2.1, h.2.2.2.2.1, h.2.2.2.2.2⟩

/-- C6: two read operations, of either kind and for any identifiers, the second of which
reads a clock at most 30 seconds (30 seconds included) past the clock the first one read,
hand together at most one request to the client, and that request is the vendor GET (no
body, the bearer header, the URL `http.NewRequest` parsed from the list URL string); this
holds for every prior state and whether the refresh of the first call succeeded or not.
The clock does not run backwards inside the first call and `time.Now()` is never the zero
instant. -/
theorem two_reads_one_request (op1 op2 : ReadOp) (env1 env2 : Env) (s : State)
    (hclock : 0 < env1.clockAtPull)
    (hmono : env1.clockAtCheck ≤ env1.clockAtPull)
    (hwithin : (env2.clockAtCheck : Int) - (env1.clockAtCheck : Int) ≤ 30 * Second) :
    ((op1.run env1 s).2 ++ (op2.run env2 (op1.run env1 s).1).2).length ≤ 1 ∧
      ∀ r ∈ (op1.run env1 s).2 ++ (op2.run env2 (op1.run env1 s).1).2,
        r = listRequest r.url s.token ∧
        (env1.newRequestURL "GET" listURL = .ok r.url ∨
          env2.newRequestURL "GET" listURL = .ok r.url) := by
  rw [ReadOp.run_eq, ReadOp.run_eq]
  simp only
  have h1 := updateLightStatus_sent env1 s
  have h2 := updateLightStatus_sent env2 (updateLightStatus env1 s).state
  rw [updateLightStatus_token] at h2
  have hsecond : refreshDue env1 s.lastPull = true →
      (updateLightStatus env2 (updateLightStatus env1 s).state).sent = [] := by
    intro hdue
    apply (updateLightStatus_skip env2 _ _).2
    rw [updateLightStatus_lastPull env1 s hdue]
    apply refreshDue_recent env2 env1.clockAtPull hclock
    have hm : ((env1.clockAtCheck : Nat) : Int) ≤ ((env1.clockAtPull : Nat) : Int) :=
      Int.ofNat_le.mpr hmono
    have hw : ((env2.clockAtCheck : Nat) : Int) - ((env1.clockAtCheck : Nat) : Int) ≤
        30 * 1000000000 := hwithin
    show ((env2.clockAtCheck : Nat) : Int) - ((env1.clockAtPull : Nat) : Int) ≤
      30 * 1000000000
    omega
  cases hdue : refreshDue env1 s.lastPull with
  | true =>
    rw [hsecond hdue]
    rcases h1 with h1 | ⟨parsed, hp, h1⟩
    · simp [h1]
    · rw [h1]
      refine ⟨by simp, ?_⟩
      intro r hr
      have hreq : r = listRequest parsed s.token := by simpa using hr
      subst hreq
      exact ⟨rfl, Or.inl hp⟩
  | false =>
    rw [(updateLightStatus_skip env1 s hdue).2]
    rcases h2 with h2 | ⟨parsed, hp, h2⟩
    · simp [h2]
    · rw [h2]
      refine ⟨by simp, ?_⟩
      intro r hr
      have hreq : r = listRequest parsed s.token := by simpa using hr
      subst hreq
      exact ⟨rfl, Or.inr hp⟩

theorem two_reads_one_request_witness :
    0 < (offlineEnv 40000000000).clockAtPull ∧
      (offlineEnv 40000000000).clockAtCheck ≤ (offlineEnv 40000000000).clockAtPull ∧
      ((sampleEnv 70000000000).clockAtCheck : Int) -
        ((offlineEnv 40000000000).clockAtCheck : Int) ≤ 30 * Second ∧
      ((ReadOp.devices.run (offlineEnv 40000000000) sampleState).2 ++
        ((ReadOp.status "d1").run (sampleEnv 70000000000)
          (ReadOp.devices.run (offlineEnv 40000000000) sampleState).1).2).length ≤ 1 :=
  ⟨by decide, by decide, by decide,
    (two_reads_one_request ReadOp.devices (ReadOp.status "d1") (offlineEnv 40000000000)
      (sampleEnv 70000000000) sampleState (by decide) (by decide) (by decide)).1⟩

/-- C7: for an identifier that is not a key of the state cache, `GetDeviceStatus` returns the
boolean false (its only result is a boolean) when the call triggers no refresh, when the
refresh it triggers fails, and when the refresh it triggers succeeds with a vendor list
that does not name the identifier; the same call on the state that caches false for the
identifier returns false as well. -/
theorem status_of_unknown_device (env : Env) (s : State) (id : String)
    (hid : id ∉ s.entries.keys)
    (hcase : refreshDue env s.lastPull = false ∨ (getAllDevices env s).value = none ∨
      ∃ list, (getAllDevices env s).value = some list ∧ id ∉ list.map Device.ID) :
    (GetDeviceStatus env s id).value = false ∧
      (GetDeviceStatus env { s with deviceStates := some (s.entries.set id false) } id).value =
        false := by
  have hkeep : ∀ t : State, t.lastPull = s.lastPull → t.token = s.token →
      (updateLightStatus env t).state.status id = t.status id := by
    intro t hl ht
    cases hdue : refreshDue env t.lastPull with
    | false => exact status_after_skip env t id hdue
    | true =>
      have hv := getAllDevices_value_congr env t s ht
      rcases hcase with h | h | ⟨list, h, hnot⟩
      · rw [hl, h] at hdue; cases hdue
      · exact status_after_fail env t id hdue (hv.trans h)
      · rw [status_after_refresh env t list id hdue (hv.trans h),
          lastWithID_none list id hnot]
  refine ⟨?_, ?_⟩
  · show (updateLightStatus env s).state.status id = false
    rw [hkeep s rfl rfl]
    exact StateMap.get_of_not_mem _ _ hid
  · exact (hkeep { s with deviceStates := some (s.entries.set id false) } rfl rfl).trans
      (StateMap.get_set_same _ _ _)

theorem status_of_unknown_device_witness :
    "d2" ∉ sampleState.entries.keys ∧
      (∃ list, (getAllDevices (sampleEnv 40000000000) sampleState).value = some list ∧
        "d2" ∉ list.map Device.ID) ∧
      (GetDeviceStatus (sampleEnv 40000000000) sampleState "d2").value = false :=
  ⟨by decide, ⟨sampleList, by decide, by decide⟩,
    (status_of_unknown_device (sampleEnv 40000000000) sampleState "d2" (by decide)
      (Or.inr (Or.inr ⟨sampleList, by decide, by decide⟩))).1⟩

end Lifx
